import Mathlib

/-!
Shallow embedding of the kepler-firebase data-access layer
(`src/lib/firebase.ts` and the data-fetch hooks in `src/lib/hooks.ts`).

Conventions of the embedding:
* JavaScript numbers are modelled as rationals (`ℚ`); the claims under
  study do not depend on floating-point rounding.
* Firestore `Timestamp` values (only ever produced by `serverTimestamp()`)
  are modelled as an abstract clock value `now : Nat` passed to each
  operation.
* The Firestore backing store is modelled as four in-memory collections of
  `(id, data)` documents plus a counter used to mint fresh document ids
  (the real store mints opaque non-empty auto-ids; the model's ids are
  `"doc" ++ n`, likewise non-empty).
* A storage-layer failure (network error thrown by `getDoc` / `addDoc` /
  `updateDoc` / `getDocs`) is injected through an explicit `fail : Bool`
  parameter; when it is `true` the corresponding store primitive throws,
  which the repository's `try/catch` converts to `null` / `false` / `[]`.
* Functions that can propagate a JavaScript exception to their caller are
  given an `Except String` result; functions whose body is entirely
  wrapped in `try/catch` (and therefore never throw) return plain values.
-/

/-- Model of a runtime JavaScript value, covering the cases the
`validateRequired` helper distinguishes: `undefined`, `null`, strings,
numbers, booleans and arrays. -/
inductive JSValue where
  | undefined
  | null
  | str (s : String)
  | num (q : ℚ)
  | bool (b : Bool)
  | arr (xs : List JSValue)

/-- The whitespace class of JavaScript (`\s` in a regular expression and
the characters removed by `String.prototype.trim`), restricted to the
ASCII whitespace characters — the claims only involve ASCII data. -/
def jsSpace (c : Char) : Bool :=
  c = ' ' || c = '\t' || c = '\n' || c = '\r' || c = '\x0b' || c = '\x0c'

/-- Model of `String.prototype.trim`: strip whitespace from both ends. -/
def jsTrim (s : String) : String :=
  ⟨((s.toList.dropWhile jsSpace).reverse.dropWhile jsSpace).reverse⟩

/-- Embedding of `validateRequired` (firebase.ts lines 329-333):
`undefined` and `null` are rejected; a string is accepted exactly when its
trimmed form is non-empty (`value.trim().length > 0`); every other value
is accepted. -/
def validateRequired : JSValue → Bool
  | .undefined => false
  | .null => false
  | .str s => jsTrim s != ""
  | .num _ => true
  | .bool _ => true
  | .arr _ => true

/-- Embedding of `validatePositiveNumber` (lines 325-327): in the typed
model the `typeof value === 'number'` guard always holds, so the check is
`value >= 0`. -/
def validatePositiveNumber (value : ℚ) : Bool :=
  decide (0 ≤ value)

/-- A character admissible in every segment of the email pattern:
anything that is not whitespace (the `@` exclusion of the class `[^\s@]`
is enforced separately by splitting the string at `@`). -/
def emailChar (c : Char) : Bool := !(jsSpace c)

/-- Split a character list at every occurrence of a separator character
(semantics of `String.prototype.split` with a one-character separator). -/
def splitAtChar (sep : Char) : List Char → List (List Char)
  | [] => [[]]
  | c :: cs =>
    match splitAtChar sep cs with
    | [] => [[]]
    | g :: gs => if c = sep then [] :: g :: gs else (c :: g) :: gs

/-- Whether a character list contains a `.` at an interior position
(neither first nor last): this is what `[^\s@]+\.[^\s@]+` requires of the
part after the `@`, since `.` itself belongs to the class `[^\s@]`. -/
def hasInteriorDot (cs : List Char) : Bool :=
  (cs.drop 1).dropLast.contains '.'

/-- Embedding of `validateEmail` (lines 312-315), the anchored regular
expression `[^\s@]+ @ [^\s@]+ . [^\s@]+`.  A string matches exactly when
it contains a single `@` (each segment of the pattern excludes `@`, so
splitting at `@` must give exactly two parts), no whitespace anywhere,
a non-empty part before the `@`, and after the `@` a `.` with at least
one character on each side. -/
def validateEmail (email : String) : Bool :=
  match splitAtChar '@' email.toList with
  | [a, r] =>
      !a.isEmpty && a.all emailChar &&
      !r.isEmpty && r.all emailChar && hasInteriorDot r
  | _ => false

/-- Result record `{ valid, errors }` returned by every composite
validator. -/
structure ValidationResult where
  valid : Bool
  errors : List String
deriving DecidableEq, Repr

/-- The `Customer` interface (lines 336-343). -/
structure Customer where
  name : String
  phone : String
  email : String
  address : String
  createdAt : Option Nat
  updatedAt : Option Nat
deriving DecidableEq, Repr

/-- Embedding of `validateCustomer` (lines 345-359): the three rules push
their error strings independently, in source order; `customer.email &&`
is the truthiness test of a string, i.e. non-emptiness. -/
def validateCustomer (c : Customer) : ValidationResult :=
  let errors : List String :=
    (if validateRequired (.str c.name) then [] else ["Name is required"]) ++
    (if validateRequired (.str c.phone) then [] else ["Phone is required"]) ++
    (if c.email != "" && !(validateEmail c.email) then ["Email format is invalid"] else [])
  { valid := errors.isEmpty, errors := errors }

/-- The `Repair` interface (lines 442-457).  The TypeScript union type of
`status` is erased at runtime (the validators receive values cast with
`as Repair`), so the runtime model uses `String`. -/
structure Repair where
  repair_id : String
  customer_id : String
  device_type : String
  brand : String
  model : String
  issue_description : String
  status : String
  created_date : Nat
  cost : ℚ
  technician_id : Option String
  tasks : List String
  notes : Option String
  passcode : Option String
  updatedAt : Option Nat
deriving DecidableEq, Repr

/-- Embedding of `validateRepair` (lines 459-480).  In the typed model
`tasks` is always an array, so `!Array.isArray(...)` is never the reason
the tasks rule fires. -/
def validateRepair (r : Repair) : ValidationResult :=
  let errors : List String :=
    (if validateRequired (.str r.customer_id) then [] else ["Customer ID is required"]) ++
    (if validateRequired (.str r.device_type) then [] else ["Device type is required"]) ++
    (if validateRequired (.str r.brand) then [] else ["Brand is required"]) ++
    (if validateRequired (.str r.model) then [] else ["Model is required"]) ++
    (if validateRequired (.str r.status) then [] else ["Status is required"]) ++
    (if validatePositiveNumber r.cost then [] else ["Cost must be a positive number"]) ++
    (if r.tasks.isEmpty then ["At least one task is required"] else [])
  { valid := errors.isEmpty, errors := errors }

/-- The `Product` interface (lines 576-587). -/
structure Product where
  product_id : String
  name : String
  category : String
  quantity : ℚ
  price : ℚ
  supplier : String
  description : Option String
  sku : Option String
  createdAt : Option Nat
  updatedAt : Option Nat
deriving DecidableEq, Repr

/-- Embedding of `validateProduct` (lines 589-608). -/
def validateProduct (p : Product) : ValidationResult :=
  let errors : List String :=
    (if validateRequired (.str p.name) then [] else ["Name is required"]) ++
    (if validateRequired (.str p.category) then [] else ["Category is required"]) ++
    (if validateRequired (.str p.supplier) then [] else ["Supplier is required"]) ++
    (if validatePositiveNumber p.quantity then [] else ["Quantity must be a positive number"]) ++
    (if validatePositiveNumber p.price then [] else ["Price must be a positive number"])
  { valid := errors.isEmpty, errors := errors }

/-- The `Technician` interface (lines 687-696). -/
structure Technician where
  tech_id : String
  name : String
  specialization : List String
  availability : Bool
  email : String
  phone : String
  createdAt : Option Nat
  updatedAt : Option Nat
deriving DecidableEq, Repr

/-- Embedding of `validateTechnician` (lines 698-720).  In the typed
model `specialization` is always an array and `availability` is always a
boolean, so the `Array.isArray` and `typeof ... !== 'boolean'` guards
never fire. -/
def validateTechnician (t : Technician) : ValidationResult :=
  let errors : List String :=
    (if validateRequired (.str t.name) then [] else ["Name is required"]) ++
    (if validateRequired (.str t.phone) then [] else ["Phone is required"]) ++
    (if t.specialization.isEmpty then ["At least one specialization is required"] else []) ++
    (if t.email != "" && !(validateEmail t.email) then ["Email format is invalid"] else [])
  { valid := errors.isEmpty, errors := errors }

/-- A stored document: the store's opaque id together with the record. -/
structure Doc (α : Type) where
  id : String
  data : α
deriving DecidableEq, Repr

/-- The state of the backing Firestore instance: the four collections
referenced by the module, plus a counter from which fresh document ids
are minted on `addDoc`. -/
structure FireStore where
  customers : List (Doc Customer)
  repairs : List (Doc Repair)
  products : List (Doc Product)
  technicians : List (Doc Technician)
  nextId : Nat
deriving DecidableEq, Repr

/-- The auto-generated id the store assigns on `addDoc` (the real store
mints an opaque non-empty random id; the model mints `"doc" ++ n`). -/
def freshDocId (n : Nat) : String := "doc" ++ toString n

/-- Model of `getDoc` followed by `.exists()` / `.data()`: the first
document of the collection carrying the requested id, if any. -/
def findDoc {α : Type} (l : List (Doc α)) (i : String) : Option α :=
  (l.find? (fun d => d.id == i)).map Doc.data

/-- Model of `updateDoc`: replace the data stored under the given id. -/
def replaceDoc {α : Type} (l : List (Doc α)) (i : String) (x : α) : List (Doc α) :=
  l.map (fun d => if d.id == i then { id := d.id, data := x } else d)

/-- The aggregated message a validator failure throws:
`Validation failed: ${errors.join(', ')}`. -/
def validationMessage (errors : List String) : String :=
  "Validation failed: " ++ String.intercalate ", " errors

/-- Embedding of `addCustomer` (lines 361-382).  Validation runs before
the `try` block, so its failure propagates to the caller (`Except.error`);
a storage failure inside the `try` is caught and becomes `null`. -/
def addCustomer (customer : Customer) (st : FireStore) (now : Nat) (fail : Bool) :
    Except String (Option String) × FireStore :=
  let validation := validateCustomer customer
  if !validation.valid then
    (Except.error (validationMessage validation.errors), st)
  else if fail then
    (Except.ok none, st)
  else
    let customerData := { customer with createdAt := some now, updatedAt := some now }
    let i := freshDocId st.nextId
    (Except.ok (some i),
     { st with customers := st.customers ++ [{ id := i, data := customerData }],
               nextId := st.nextId + 1 })

/-- A `Partial<Customer>` payload: `some` marks a supplied field. -/
structure CustomerPatch where
  name : Option String
  phone : Option String
  email : Option String
  address : Option String
  createdAt : Option Nat
  updatedAt : Option Nat
deriving DecidableEq, Repr

/-- The JavaScript spread `{ ...current, ...patch }`: supplied fields of
the patch win, all others keep the current value. -/
def mergeCustomer (cur : Customer) (p : CustomerPatch) : Customer :=
  { name := p.name.getD cur.name
    phone := p.phone.getD cur.phone
    email := p.email.getD cur.email
    address := p.address.getD cur.address
    createdAt := (p.createdAt.map some).getD cur.createdAt
    updatedAt := (p.updatedAt.map some).getD cur.updatedAt }

/-- Embedding of `updateCustomer` (lines 384-407).  Everything runs inside
one `try/catch` returning `false`: a storage failure, a missing document
(`throw 'Customer not found'`) and a validation failure of the merged
record all surface as `false` with no write.  Only on a valid merged
record is the document replaced and `true` returned. -/
def updateCustomer (customerId : String) (p : CustomerPatch) (st : FireStore)
    (now : Nat) (fail : Bool) : Bool × FireStore :=
  if fail then (false, st)
  else
    match findDoc st.customers customerId with
    | none => (false, st)
    | some currentData =>
      let updatedData := { mergeCustomer currentData p with updatedAt := some now }
      if !(validateCustomer updatedData).valid then (false, st)
      else (true, { st with customers := replaceDoc st.customers customerId updatedData })

/-- Embedding of `getCustomers` (lines 409-420): all documents, `[]` on a
storage failure. -/
def getCustomers (st : FireStore) (fail : Bool) : List (Doc Customer) :=
  if fail then [] else st.customers

/-- The lowercased `en-US` short month names produced by
`date.toLocaleString('en-US', { month: 'short' }).toLowerCase()`. -/
def monthNames : List String :=
  ["jan", "feb", "mar", "apr", "may", "jun",
   "jul", "aug", "sep", "oct", "nov", "dec"]

/-- The month component of a repair id, for month `m` (0 = January). -/
def monthShortLower (m : Fin 12) : String := monthNames.getD m.val ""

/-- The generated repair id (lines 485-488): lowercased short month name
followed by `Math.floor(1000 + Math.random() * 9000)`, where `r` is the
value returned by `Math.random()`. -/
def genRepairId (m : Fin 12) (r : ℚ) : String :=
  monthShortLower m ++ toString (⌊(1000 : ℚ) + r * 9000⌋)

/-- An `addRepair` payload: `Omit<Repair, 'repair_id' | 'created_date'>`. -/
structure RepairInput where
  customer_id : String
  device_type : String
  brand : String
  model : String
  issue_description : String
  status : String
  cost : ℚ
  technician_id : Option String
  tasks : List String
  notes : Option String
  passcode : Option String
  updatedAt : Option Nat
deriving DecidableEq, Repr

/-- The `repairData` object built by `addRepair`: the payload spread,
then the generated `repair_id`, `created_date: serverTimestamp()` and
`updatedAt: serverTimestamp()`. -/
def buildRepair (p : RepairInput) (rid : String) (now : Nat) : Repair :=
  { repair_id := rid
    customer_id := p.customer_id
    device_type := p.device_type
    brand := p.brand
    model := p.model
    issue_description := p.issue_description
    status := p.status
    created_date := now
    cost := p.cost
    technician_id := p.technician_id
    tasks := p.tasks
    notes := p.notes
    passcode := p.passcode
    updatedAt := some now }

/-- Embedding of `addRepair` (lines 482-508).  The whole body, validation
included, sits inside one `try/catch` that returns `null`: a validation
failure is thrown and immediately caught by the function's own `catch`,
so the caller sees `null`, never an exception.  `m` is the current month
and `r` the value of `Math.random()`. -/
def addRepair (repair : RepairInput) (st : FireStore) (m : Fin 12) (r : ℚ)
    (now : Nat) (fail : Bool) : Option String × FireStore :=
  let repairData := buildRepair repair (genRepairId m r) now
  if !(validateRepair repairData).valid then (none, st)
  else if fail then (none, st)
  else
    let i := freshDocId st.nextId
    (some i,
     { st with repairs := st.repairs ++ [{ id := i, data := repairData }],
               nextId := st.nextId + 1 })

/-- A `Partial<Repair>` payload: `some` marks a supplied field. -/
structure RepairPatch where
  repair_id : Option String
  customer_id : Option String
  device_type : Option String
  brand : Option String
  model : Option String
  issue_description : Option String
  status : Option String
  created_date : Option Nat
  cost : Option ℚ
  technician_id : Option String
  tasks : Option (List String)
  notes : Option String
  passcode : Option String
  updatedAt : Option Nat
deriving DecidableEq, Repr

/-- Field-wise merge of a partial repair over a stored repair.  In
`updateRepair` this merge is performed by the store's `updateDoc`
primitive, which sets the supplied fields and leaves all others
untouched. -/
def mergeRepair (cur : Repair) (p : RepairPatch) : Repair :=
  { repair_id := p.repair_id.getD cur.repair_id
    customer_id := p.customer_id.getD cur.customer_id
    device_type := p.device_type.getD cur.device_type
    brand := p.brand.getD cur.brand
    model := p.model.getD cur.model
    issue_description := p.issue_description.getD cur.issue_description
    status := p.status.getD cur.status
    created_date := p.created_date.getD cur.created_date
    cost := p.cost.getD cur.cost
    technician_id := (p.technician_id.map some).getD cur.technician_id
    tasks := p.tasks.getD cur.tasks
    notes := (p.notes.map some).getD cur.notes
    passcode := (p.passcode.map some).getD cur.passcode
    updatedAt := (p.updatedAt.map some).getD cur.updatedAt }

/-- Embedding of `updateRepair` (lines 510-530).  It fetches the
document, throws (caught, so `false`) when absent, and otherwise passes
`{ ...repair, updatedAt: serverTimestamp() }` straight to `updateDoc` —
no merge in application code and, unlike `updateCustomer`, no validation
of the merged record. -/
def updateRepair (repairId : String) (p : RepairPatch) (st : FireStore)
    (now : Nat) (fail : Bool) : Bool × FireStore :=
  if fail then (false, st)
  else
    match findDoc st.repairs repairId with
    | none => (false, st)
    | some cur =>
      let updatedData := { mergeRepair cur p with updatedAt := some now }
      (true, { st with repairs := replaceDoc st.repairs repairId updatedData })

/-- Embedding of `getRepairs` (lines 532-543). -/
def getRepairs (st : FireStore) (fail : Bool) : List (Doc Repair) :=
  if fail then [] else st.repairs

/-- Embedding of `getRepairsByStatus` (lines 545-558): the Firestore
query `where('status', '==', status)`, `[]` on a storage failure. -/
def getRepairsByStatus (status : String) (st : FireStore) (fail : Bool) :
    List (Doc Repair) :=
  if fail then [] else st.repairs.filter (fun d => d.data.status == status)

/-- Embedding of `getRepairsByCustomerId` (lines 560-573). -/
def getRepairsByCustomerId (customerId : String) (st : FireStore) (fail : Bool) :
    List (Doc Repair) :=
  if fail then [] else st.repairs.filter (fun d => d.data.customer_id == customerId)

/-- The base-36 digits, in value order, as produced by
`Number.prototype.toString(36)`. -/
def base36Chars : List Char :=
  "0123456789abcdefghijklmnopqrstuvwxyz".toList

/-- Whether a character is a lowercase base-36 digit. -/
def isBase36Digit (c : Char) : Bool := decide (c ∈ base36Chars)

/-- Whether a character is an uppercase base-36 digit (a digit or an
uppercase letter), the alphabet of the generated id suffixes after
`.toUpperCase()`. -/
def isBase36Upper (c : Char) : Bool := decide (c ∈ base36Chars.map Char.toUpper)

/-- Well-formedness of the string `Math.random().toString(36)` returns
for a value in `[0, 1)`: either `"0"` (for the value `0`) or `"0."`
followed by a non-empty run of base-36 digits whose last digit is not
`'0'` (the runtime never prints trailing zero digits).  The rendering of
the random double is an external runtime primitive, so it is modelled by
this shape rather than re-implemented. -/
def randToString36WF (s : String) : Bool :=
  s == "0" ||
    (s.toList.take 2 == ['0', '.'] &&
     !(s.toList.drop 2).isEmpty &&
     (s.toList.drop 2).all isBase36Digit &&
     s.toList.getLast? != some '0')

/-- Model of `String.prototype.substring(a, b)` for `a ≤ b`: the
characters from index `a` (inclusive) to `b` (exclusive), clamped to the
string's length. -/
def jsSubstring (s : String) (a b : Nat) : String :=
  ⟨(s.toList.drop a).take (b - a)⟩

/-- Model of `String.prototype.toUpperCase` (ASCII). -/
def jsToUpperCase (s : String) : String := ⟨s.toList.map Char.toUpper⟩

/-- The generated product id (lines 612-614):
`'PROD-' + Math.random().toString(36).substring(2, 10).toUpperCase()`,
where `s` is the base-36 rendering of the random value. -/
def genProductId (s : String) : String :=
  "PROD-" ++ jsToUpperCase (jsSubstring s 2 10)

/-- The generated technician id (lines 724-726):
`'TECH-' + Math.random().toString(36).substring(2, 8).toUpperCase()`. -/
def genTechId (s : String) : String :=
  "TECH-" ++ jsToUpperCase (jsSubstring s 2 8)

/-- An `addProduct` payload: `Omit<Product, 'product_id'>`. -/
structure ProductInput where
  name : String
  category : String
  quantity : ℚ
  price : ℚ
  supplier : String
  description : Option String
  sku : Option String
  createdAt : Option Nat
  updatedAt : Option Nat
deriving DecidableEq, Repr

/-- The `productData` object built by `addProduct`. -/
def buildProduct (p : ProductInput) (pid : String) (now : Nat) : Product :=
  { product_id := pid
    name := p.name
    category := p.category
    quantity := p.quantity
    price := p.price
    supplier := p.supplier
    description := p.description
    sku := p.sku
    createdAt := some now
    updatedAt := some now }

/-- Embedding of `addProduct` (lines 610-634).  Like `addRepair`, the
validation failure is thrown inside the function's own `try/catch`, so
the caller receives `null`, never an exception.  `s` is the base-36
rendering of the `Math.random()` value. -/
def addProduct (product : ProductInput) (st : FireStore) (s : String)
    (now : Nat) (fail : Bool) : Option String × FireStore :=
  let productData := buildProduct product (genProductId s) now
  if !(validateProduct productData).valid then (none, st)
  else if fail then (none, st)
  else
    let i := freshDocId st.nextId
    (some i,
     { st with products := st.products ++ [{ id := i, data := productData }],
               nextId := st.nextId + 1 })

/-- A `Partial<Product>` payload. -/
structure ProductPatch where
  product_id : Option String
  name : Option String
  category : Option String
  quantity : Option ℚ
  price : Option ℚ
  supplier : Option String
  description : Option String
  sku : Option String
  createdAt : Option Nat
  updatedAt : Option Nat
deriving DecidableEq, Repr

/-- Field-wise merge of a partial product over a stored product
(performed by the store's `updateDoc`). -/
def mergeProduct (cur : Product) (p : ProductPatch) : Product :=
  { product_id := p.product_id.getD cur.product_id
    name := p.name.getD cur.name
    category := p.category.getD cur.category
    quantity := p.quantity.getD cur.quantity
    price := p.price.getD cur.price
    supplier := p.supplier.getD cur.supplier
    description := (p.description.map some).getD cur.description
    sku := (p.sku.map some).getD cur.sku
    createdAt := (p.createdAt.map some).getD cur.createdAt
    updatedAt := (p.updatedAt.map some).getD cur.updatedAt }

/-- Embedding of `updateProduct` (lines 636-656): fetch, `false` when
absent, then `updateDoc` with the partial fields plus `updatedAt` — no
validation of the merged record. -/
def updateProduct (productId : String) (p : ProductPatch) (st : FireStore)
    (now : Nat) (fail : Bool) : Bool × FireStore :=
  if fail then (false, st)
  else
    match findDoc st.products productId with
    | none => (false, st)
    | some cur =>
      let updatedData := { mergeProduct cur p with updatedAt := some now }
      (true, { st with products := replaceDoc st.products productId updatedData })

/-- Embedding of `getProducts` (lines 658-669). -/
def getProducts (st : FireStore) (fail : Bool) : List (Doc Product) :=
  if fail then [] else st.products

/-- Embedding of `getProductsByCategory` (lines 671-684): the query
`where('category', '==', category)`. -/
def getProductsByCategory (category : String) (st : FireStore) (fail : Bool) :
    List (Doc Product) :=
  if fail then [] else st.products.filter (fun d => d.data.category == category)

/-- An `addTechnician` payload: `Omit<Technician, 'tech_id'>`. -/
structure TechnicianInput where
  name : String
  specialization : List String
  availability : Bool
  email : String
  phone : String
  createdAt : Option Nat
  updatedAt : Option Nat
deriving DecidableEq, Repr

/-- The `technicianData` object built by `addTechnician`. -/
def buildTechnician (p : TechnicianInput) (tid : String) (now : Nat) : Technician :=
  { tech_id := tid
    name := p.name
    specialization := p.specialization
    availability := p.availability
    email := p.email
    phone := p.phone
    createdAt := some now
    updatedAt := some now }

/-- Embedding of `addTechnician` (lines 722-746): same shape as
`addProduct`, validation failure caught inside the function and reported
as `null`. -/
def addTechnician (technician : TechnicianInput) (st : FireStore) (s : String)
    (now : Nat) (fail : Bool) : Option String × FireStore :=
  let technicianData := buildTechnician technician (genTechId s) now
  if !(validateTechnician technicianData).valid then (none, st)
  else if fail then (none, st)
  else
    let i := freshDocId st.nextId
    (some i,
     { st with technicians := st.technicians ++ [{ id := i, data := technicianData }],
               nextId := st.nextId + 1 })

/-- A `Partial<Technician>` payload. -/
structure TechnicianPatch where
  tech_id : Option String
  name : Option String
  specialization : Option (List String)
  availability : Option Bool
  email : Option String
  phone : Option String
  createdAt : Option Nat
  updatedAt : Option Nat
deriving DecidableEq, Repr

/-- Field-wise merge of a partial technician over a stored technician. -/
def mergeTechnician (cur : Technician) (p : TechnicianPatch) : Technician :=
  { tech_id := p.tech_id.getD cur.tech_id
    name := p.name.getD cur.name
    specialization := p.specialization.getD cur.specialization
    availability := p.availability.getD cur.availability
    email := p.email.getD cur.email
    phone := p.phone.getD cur.phone
    createdAt := (p.createdAt.map some).getD cur.createdAt
    updatedAt := (p.updatedAt.map some).getD cur.updatedAt }

/-- Embedding of `updateTechnician` (lines 748-768): fetch, `false` when
absent, then `updateDoc` with the partial fields plus `updatedAt` — no
validation of the merged record. -/
def updateTechnician (technicianId : String) (p : TechnicianPatch) (st : FireStore)
    (now : Nat) (fail : Bool) : Bool × FireStore :=
  if fail then (false, st)
  else
    match findDoc st.technicians technicianId with
    | none => (false, st)
    | some cur =>
      let updatedData := { mergeTechnician cur p with updatedAt := some now }
      (true, { st with technicians := replaceDoc st.technicians technicianId updatedData })

/-- Embedding of `getTechnicians` (lines 770-781). -/
def getTechnicians (st : FireStore) (fail : Bool) : List (Doc Technician) :=
  if fail then [] else st.technicians

/-- Embedding of `getAvailableTechnicians` (lines 783-796): the query
`where('availability', '==', true)`. -/
def getAvailableTechnicians (st : FireStore) (fail : Bool) : List (Doc Technician) :=
  if fail then [] else st.technicians.filter (fun d => d.data.availability == true)

/-- Observable outcome of running a data-fetch hook's effect once, on the
success path (the claims under study do not concern repository errors):
whether the backing repository function was invoked, the data state the
effect leaves behind, and the loading flag after the effect settles. -/
structure HookState (α : Type) where
  invoked : Bool
  data : List α
  loading : Bool
deriving DecidableEq, Repr

/-- Embedding of the effect body of `useRepairsByStatus` (hooks.ts lines
95-118): `fetchRepairsByStatus()` is called unconditionally — there is no
guard on `status`. -/
def useRepairsByStatus (status : String) (repo : String → List (Doc Repair)) :
    HookState (Doc Repair) :=
  { invoked := true, data := repo status, loading := false }

/-- The dependency array `[status]` of the `useRepairsByStatus` effect:
the effect re-runs exactly when this array changes. -/
def useRepairsByStatusDeps (status : String) : List String := [status]

/-- Embedding of the effect body of `useRepairsByCustomerId` (lines
121-149): `if (customerId)` guards the fetch; a falsy (empty) id resets
the data to `[]` and clears the loading flag without calling the
repository. -/
def useRepairsByCustomerId (customerId : String) (repo : String → List (Doc Repair)) :
    HookState (Doc Repair) :=
  if customerId != "" then
    { invoked := true, data := repo customerId, loading := false }
  else
    { invoked := false, data := [], loading := false }

/-- The dependency array `[customerId]` of `useRepairsByCustomerId`. -/
def useRepairsByCustomerIdDeps (customerId : String) : List String := [customerId]

/-- Embedding of the effect body of `useProductsByCategory` (lines
178-206): `if (category)` guards the fetch exactly like
`useRepairsByCustomerId`. -/
def useProductsByCategory (category : String) (repo : String → List (Doc Product)) :
    HookState (Doc Product) :=
  if category != "" then
    { invoked := true, data := repo category, loading := false }
  else
    { invoked := false, data := [], loading := false }

/-- The dependency array `[category]` of `useProductsByCategory`. -/
def useProductsByCategoryDeps (category : String) : List String := [category]

/-!
Theorems settling the claims.  Helper lemmas shared between several
claims come first.
-/

/-- Unfolding of `findDoc` on a cons cell. -/
theorem findDoc_cons {α : Type} (d : Doc α) (l : List (Doc α)) (i : String) :
    findDoc (d :: l) i = if d.id == i then some d.data else findDoc l i := by
  by_cases hd : (d.id == i) = true <;>
    simp [findDoc, List.find?_cons_of_pos, List.find?_cons_of_neg, hd]

/-- Unfolding of `replaceDoc` on a cons cell. -/
theorem replaceDoc_cons {α : Type} (d : Doc α) (l : List (Doc α)) (i : String) (x : α) :
    replaceDoc (d :: l) i x =
      (if d.id == i then { id := d.id, data := x } else d) :: replaceDoc l i x := by
  simp [replaceDoc]

/-- After replacing the data stored under an id that is present, looking
the id up returns the new data. -/
theorem findDoc_replaceDoc {α : Type} (l : List (Doc α)) (i : String) (x : α)
    (old : α) (h : findDoc l i = some old) :
    findDoc (replaceDoc l i x) i = some x := by
  induction l with
  | nil => simp [findDoc] at h
  | cons d rest ih =>
    rw [findDoc_cons] at h
    rw [replaceDoc_cons]
    by_cases hd : (d.id == i) = true
    · rw [if_pos hd, findDoc_cons, if_pos (by simpa using hd)]
    · rw [if_neg hd] at h
      rw [if_neg hd, findDoc_cons, if_neg hd]
      exact ih h

/-- C10: the required-field predicate rejects exactly `undefined`, `null`
and strings that trim to empty; numbers (including `0`), booleans
(including `false`) and arrays (including `[]`) are always accepted. -/
theorem validateRequired_characterization :
    (∀ v : JSValue, validateRequired v = false ↔
      (v = .undefined ∨ v = .null ∨ ∃ s, v = .str s ∧ jsTrim s = "")) ∧
    validateRequired (.num 0) = true ∧
    validateRequired (.bool false) = true ∧
    validateRequired (.arr []) = true := by
  refine ⟨fun v => ?_, rfl, rfl, rfl⟩
  cases v <;> simp [validateRequired]

/-- C5: the customer validator fails exactly when the name or the phone
trims to empty, or the email is present (non-empty) and fails the format
check; the three rules are evaluated independently, each failed rule
contributing exactly its own entry to the error list. -/
theorem validateCustomer_characterization (c : Customer) :
    ((validateCustomer c).valid = false ↔
      (jsTrim c.name = "" ∨ jsTrim c.phone = "" ∨
       (c.email ≠ "" ∧ validateEmail c.email = false))) ∧
    ("Name is required" ∈ (validateCustomer c).errors ↔ jsTrim c.name = "") ∧
    ("Phone is required" ∈ (validateCustomer c).errors ↔ jsTrim c.phone = "") ∧
    ("Email format is invalid" ∈ (validateCustomer c).errors ↔
      (c.email ≠ "" ∧ validateEmail c.email = false)) ∧
    (validateCustomer c).errors.length =
      ((if jsTrim c.name = "" then 1 else 0) +
       (if jsTrim c.phone = "" then 1 else 0) +
       (if c.email ≠ "" ∧ validateEmail c.email = false then 1 else 0)) := by
  by_cases h1 : jsTrim c.name = "" <;> by_cases h2 : jsTrim c.phone = "" <;>
    by_cases h3 : c.email = "" <;> by_cases h4 : validateEmail c.email = true <;>
      simp_all [validateCustomer, validateRequired, List.isEmpty_eq_false,
                List.isEmpty_iff]

/-- C8: when the email field is the empty string, the format check is
skipped (the value is falsy), so the `Email format is invalid` entry
never appears and validation of a customer or technician is decided
solely by the remaining rules. -/
theorem emptyEmail_skips_format_check (c : Customer) (t : Technician)
    (hc : c.email = "") (ht : t.email = "") :
    ("Email format is invalid" ∉ (validateCustomer c).errors) ∧
    ((validateCustomer c).valid = true ↔ (jsTrim c.name ≠ "" ∧ jsTrim c.phone ≠ "")) ∧
    ("Email format is invalid" ∉ (validateTechnician t).errors) ∧
    ((validateTechnician t).valid = true ↔
      (jsTrim t.name ≠ "" ∧ jsTrim t.phone ≠ "" ∧ t.specialization ≠ [])) := by
  by_cases h1 : jsTrim c.name = "" <;> by_cases h2 : jsTrim c.phone = "" <;>
    by_cases h3 : jsTrim t.name = "" <;> by_cases h4 : jsTrim t.phone = "" <;>
      by_cases h5 : t.specialization = [] <;>
      simp_all [validateCustomer, validateTechnician, validateRequired,
                List.isEmpty_eq_false, List.isEmpty_iff]

/-- Witness for C8 at a concrete customer and technician whose email is
the empty string. -/
theorem emptyEmail_skips_format_check_witness :
    "Email format is invalid" ∉
      (validateCustomer
        { name := "Ada", phone := "555", email := "", address := "x",
          createdAt := none, updatedAt := none }).errors ∧
    "Email format is invalid" ∉
      (validateTechnician
        { tech_id := "TECH-1", name := "Mike", specialization := ["Phones"],
          availability := true, email := "", phone := "555",
          createdAt := none, updatedAt := none }).errors :=
  ⟨(emptyEmail_skips_format_check
      { name := "Ada", phone := "555", email := "", address := "x",
        createdAt := none, updatedAt := none }
      { tech_id := "TECH-1", name := "Mike", specialization := ["Phones"],
        availability := true, email := "", phone := "555",
        createdAt := none, updatedAt := none } rfl rfl).1,
   (emptyEmail_skips_format_check
      { name := "Ada", phone := "555", email := "", address := "x",
        createdAt := none, updatedAt := none }
      { tech_id := "TECH-1", name := "Mike", specialization := ["Phones"],
        availability := true, email := "", phone := "555",
        createdAt := none, updatedAt := none } rfl rfl).2.2.1⟩

/-- A repair record that is fully valid for the runtime validator but
whose status lies outside the enumerated set of the TypeScript type. -/
def strayStatusRepair : Repair :=
  { repair_id := "jan1000"
    customer_id := "c1"
    device_type := "Laptop"
    brand := "Dell"
    model := "XPS"
    issue_description := "won't boot"
    status := "cancelled"
    created_date := 0
    cost := 50
    technician_id := none
    tasks := ["Diagnostic"]
    notes := none
    passcode := none
    updatedAt := none }

/-- Counterexample to C1 as stated: the repair validator accepts a record
whose status is the non-empty string `"cancelled"`, which is outside
the enumerated set, so membership of the status in
`pending / in-progress / completed` is not among the conditions the
validator enforces. -/
theorem validateRepair_stray_status_accepted :
    (validateRepair strayStatusRepair).valid = true ∧
    strayStatusRepair.status ≠ "" ∧
    strayStatusRepair.status ≠ "pending" ∧
    strayStatusRepair.status ≠ "in-progress" ∧
    strayStatusRepair.status ≠ "completed" := by
  refine ⟨by decide, by decide, by decide, by decide, by decide⟩

/-- C1 (amended): the repair validator fails exactly when one of
customer_id / device_type / brand / model / status trims to empty, or
the cost is negative, or the task list is empty — with no runtime check
that the status belongs to the enumerated set. -/
theorem validateRepair_characterization (r : Repair) :
    ((validateRepair r).valid = false) ↔
      (jsTrim r.customer_id = "" ∨ jsTrim r.device_type = "" ∨ jsTrim r.brand = "" ∨
       jsTrim r.model = "" ∨ jsTrim r.status = "" ∨ r.cost < 0 ∨ r.tasks = []) := by
  simp only [validateRepair, validateRequired, validatePositiveNumber]
  simp [List.isEmpty_eq_false, List.append_eq_nil, apply_ite List.isEmpty,
        List.isEmpty_iff, not_le]
  rw [show (r.cost < 0 ↔ ¬ (0:ℚ) ≤ r.cost) from not_le.symm]
  tauto

/-- C6: each equality-filtered query returns exactly the sub-sequence of
the full listing whose field equals the queried value, the empty sequence
when nothing matches, and the empty sequence on a storage failure. -/
theorem queryByField_filters_list (st : FireStore) (v : String) :
    (getRepairsByStatus v st false =
      (getRepairs st false).filter (fun d => d.data.status == v)) ∧
    (getRepairsByStatus v st true = []) ∧
    ((∀ d ∈ st.repairs, d.data.status ≠ v) → getRepairsByStatus v st false = []) ∧
    (getRepairsByCustomerId v st false =
      (getRepairs st false).filter (fun d => d.data.customer_id == v)) ∧
    (getRepairsByCustomerId v st true = []) ∧
    ((∀ d ∈ st.repairs, d.data.customer_id ≠ v) →
      getRepairsByCustomerId v st false = []) ∧
    (getProductsByCategory v st false =
      (getProducts st false).filter (fun d => d.data.category == v)) ∧
    (getProductsByCategory v st true = []) ∧
    ((∀ d ∈ st.products, d.data.category ≠ v) →
      getProductsByCategory v st false = []) ∧
    (getAvailableTechnicians st false =
      (getTechnicians st false).filter (fun d => d.data.availability == true)) ∧
    (getAvailableTechnicians st true = []) ∧
    ((∀ d ∈ st.technicians, d.data.availability ≠ true) →
      getAvailableTechnicians st false = []) := by
  refine ⟨rfl, rfl, fun h => ?_, rfl, rfl, fun h => ?_, rfl, rfl, fun h => ?_,
          rfl, rfl, fun h => ?_⟩ <;>
    simp only [getRepairsByStatus, getRepairsByCustomerId, getProductsByCategory,
               getAvailableTechnicians, if_neg Bool.false_ne_true,
               List.filter_eq_nil_iff, if_false] <;>
    intro d hd <;> simp [h d hd]

/-- Witness store for the query claims: two completed repairs, one
pending repair, one matching product, one available and one unavailable
technician. -/
def queryDemoStore : FireStore :=
  { customers := []
    repairs :=
      [{ id := "r1", data := { strayStatusRepair with status := "completed" } },
       { id := "r2", data := { strayStatusRepair with status := "pending" } },
       { id := "r3", data := { strayStatusRepair with status := "completed" } }]
    products := []
    technicians := []
    nextId := 0 }

/-- Witness for C6: on the demo store, querying the status `completed`
returns exactly the two completed repairs, and querying a status no
repair carries returns the empty sequence. -/
theorem queryByField_filters_list_witness :
    getRepairsByStatus "completed" queryDemoStore false =
      (getRepairs queryDemoStore false).filter (fun d => d.data.status == "completed") ∧
    getRepairsByStatus "archived" queryDemoStore false = [] :=
  ⟨(queryByField_filters_list queryDemoStore "completed").1,
   (queryByField_filters_list queryDemoStore "archived").2.2.1 (by decide)⟩

/-- A demo repair document used as a concrete repository answer. -/
def demoRepairDoc : Doc Repair := { id := "r9", data := strayStatusRepair }

/-- Counterexample to C4 as stated: the status hook runs its fetch even
for the empty (falsy) status — the repository function is invoked and its
answer, not the empty sequence, becomes the hook's data. -/
theorem useRepairsByStatus_no_short_circuit :
    (useRepairsByStatus "" (fun _ => [demoRepairDoc])).invoked = true ∧
    (useRepairsByStatus "" (fun _ => [demoRepairDoc])).data = [demoRepairDoc] ∧
    (useRepairsByStatus "" (fun _ => [demoRepairDoc])).data ≠ [] :=
  ⟨rfl, rfl, by decide⟩

/-- C4 (amended): `useRepairsByCustomerId` and `useProductsByCategory`
short-circuit on a falsy (empty) parameter to an empty result without
invoking the repository, and invoke it on any truthy parameter;
`useRepairsByStatus` invokes the repository unconditionally, even on an
empty status; all three effects re-run exactly when their dependency
array — which consists of the query parameter — changes. -/
theorem hooks_query_param_behavior :
    (∀ repo : String → List (Doc Repair),
      useRepairsByCustomerId "" repo =
        { invoked := false, data := [], loading := false }) ∧
    (∀ (cid : String) (repo : String → List (Doc Repair)), cid ≠ "" →
      useRepairsByCustomerId cid repo =
        { invoked := true, data := repo cid, loading := false }) ∧
    (∀ repo : String → List (Doc Product),
      useProductsByCategory "" repo =
        { invoked := false, data := [], loading := false }) ∧
    (∀ (cat : String) (repo : String → List (Doc Product)), cat ≠ "" →
      useProductsByCategory cat repo =
        { invoked := true, data := repo cat, loading := false }) ∧
    (∀ (s : String) (repo : String → List (Doc Repair)),
      useRepairsByStatus s repo =
        { invoked := true, data := repo s, loading := false }) ∧
    (∀ a b : String, a ≠ b →
      useRepairsByStatusDeps a ≠ useRepairsByStatusDeps b ∧
      useRepairsByCustomerIdDeps a ≠ useRepairsByCustomerIdDeps b ∧
      useProductsByCategoryDeps a ≠ useProductsByCategoryDeps b) := by
  refine ⟨fun repo => rfl, fun cid repo h => ?_, fun repo => rfl,
          fun cat repo h => ?_, fun s repo => rfl, fun a b h => ?_⟩
  · simp [useRepairsByCustomerId, h]
  · simp [useProductsByCategory, h]
  · simp [useRepairsByStatusDeps, useRepairsByCustomerIdDeps,
          useProductsByCategoryDeps, h]

/-- Witness for C4 at concrete inputs: a truthy customer id invokes the
repository, the empty customer id short-circuits. -/
theorem hooks_query_param_behavior_witness :
    useRepairsByCustomerId "c1" (fun _ => [demoRepairDoc]) =
      { invoked := true, data := [demoRepairDoc], loading := false } ∧
    useRepairsByCustomerId "" (fun _ => [demoRepairDoc]) =
      { invoked := false, data := [], loading := false } ∧
    useRepairsByStatusDeps "a" ≠ useRepairsByStatusDeps "b" :=
  ⟨hooks_query_param_behavior.2.1 "c1" (fun _ => [demoRepairDoc]) (by decide),
   hooks_query_param_behavior.1 (fun _ => [demoRepairDoc]),
   (hooks_query_param_behavior.2.2.2.2.2 "a" "b" (by decide)).1⟩

/-- The document ids minted by the store are never empty. -/
theorem freshDocId_ne_empty (n : Nat) : freshDocId n ≠ "" := by
  intro h
  have := congrArg String.length h
  simp [freshDocId, String.length_append] at this
  exact absurd this.1 (by decide)

/-- The empty backing store. -/
def emptyStore : FireStore :=
  { customers := [], repairs := [], products := [], technicians := [], nextId := 0 }

/-- A repair payload that fails validation (empty customer id). -/
def invalidRepairInput : RepairInput :=
  { customer_id := ""
    device_type := "Laptop"
    brand := "Dell"
    model := "XPS"
    issue_description := "x"
    status := "pending"
    cost := 10
    technician_id := none
    tasks := ["Diagnostic"]
    notes := none
    passcode := none
    updatedAt := none }

/-- Counterexample to C2 as stated: an invalid repair payload makes
`addRepair` return `null` with no write — the validation exception is
thrown inside the function's own `try` and caught by its own `catch`, so
no exception ever reaches the caller. -/
theorem addRepair_returns_null_on_invalid :
    (validateRepair (buildRepair invalidRepairInput (genRepairId 0 (1/2)) 0)).valid
        = false ∧
    addRepair invalidRepairInput emptyStore 0 (1/2) 0 false = (none, emptyStore) := by
  exact ⟨by decide, by decide⟩

/-- C2 (amended): on an invalid payload no entity performs a write, but
only `addCustomer` raises the aggregated error list — `addRepair`,
`addProduct` and `addTechnician` catch their own validation exception and
return `null`; on a valid payload (with the backing store succeeding)
every add stamps both timestamps into the stored record and returns the
store's freshly minted non-empty document id. -/
theorem add_validation_behavior :
    (∀ (c : Customer) (st : FireStore) (now : Nat) (fail : Bool),
      (validateCustomer c).valid = false →
        addCustomer c st now fail =
          (Except.error (validationMessage (validateCustomer c).errors), st)) ∧
    (∀ (c : Customer) (st : FireStore) (now : Nat),
      (validateCustomer c).valid = true →
        addCustomer c st now false =
          (Except.ok (some (freshDocId st.nextId)),
           { st with
               customers := st.customers ++
                 [{ id := freshDocId st.nextId,
                    data := { c with createdAt := some now, updatedAt := some now } }],
               nextId := st.nextId + 1 }) ∧
        freshDocId st.nextId ≠ "") ∧
    (∀ (p : RepairInput) (st : FireStore) (m : Fin 12) (r : ℚ) (now : Nat) (fail : Bool),
      (validateRepair (buildRepair p (genRepairId m r) now)).valid = false →
        addRepair p st m r now fail = (none, st)) ∧
    (∀ (p : RepairInput) (st : FireStore) (m : Fin 12) (r : ℚ) (now : Nat),
      (validateRepair (buildRepair p (genRepairId m r) now)).valid = true →
        addRepair p st m r now false =
          (some (freshDocId st.nextId),
           { st with
               repairs := st.repairs ++
                 [{ id := freshDocId st.nextId,
                    data := buildRepair p (genRepairId m r) now }],
               nextId := st.nextId + 1 }) ∧
        freshDocId st.nextId ≠ "") ∧
    (∀ (p : ProductInput) (st : FireStore) (s : String) (now : Nat) (fail : Bool),
      (validateProduct (buildProduct p (genProductId s) now)).valid = false →
        addProduct p st s now fail = (none, st)) ∧
    (∀ (p : ProductInput) (st : FireStore) (s : String) (now : Nat),
      (validateProduct (buildProduct p (genProductId s) now)).valid = true →
        addProduct p st s now false =
          (some (freshDocId st.nextId),
           { st with
               products := st.products ++
                 [{ id := freshDocId st.nextId,
                    data := buildProduct p (genProductId s) now }],
               nextId := st.nextId + 1 }) ∧
        freshDocId st.nextId ≠ "") ∧
    (∀ (p : TechnicianInput) (st : FireStore) (s : String) (now : Nat) (fail : Bool),
      (validateTechnician (buildTechnician p (genTechId s) now)).valid = false →
        addTechnician p st s now fail = (none, st)) ∧
    (∀ (p : TechnicianInput) (st : FireStore) (s : String) (now : Nat),
      (validateTechnician (buildTechnician p (genTechId s) now)).valid = true →
        addTechnician p st s now false =
          (some (freshDocId st.nextId),
           { st with
               technicians := st.technicians ++
                 [{ id := freshDocId st.nextId,
                    data := buildTechnician p (genTechId s) now }],
               nextId := st.nextId + 1 }) ∧
        freshDocId st.nextId ≠ "") := by
  refine ⟨fun c st now fail h => ?_, fun c st now h => ⟨?_, freshDocId_ne_empty _⟩,
          fun p st m r now fail h => ?_, fun p st m r now h => ⟨?_, freshDocId_ne_empty _⟩,
          fun p st s now fail h => ?_, fun p st s now h => ⟨?_, freshDocId_ne_empty _⟩,
          fun p st s now fail h => ?_, fun p st s now h => ⟨?_, freshDocId_ne_empty _⟩⟩ <;>
    simp [addCustomer, addRepair, addProduct, addTechnician, h]

/-- A fully valid customer payload used by the witnesses. -/
def demoCustomer : Customer :=
  { name := "John Doe", phone := "123-456-7890", email := "john.doe@example.com",
    address := "123 Main St", createdAt := none, updatedAt := none }

/-- Witness for C2: on a concrete invalid customer `addCustomer` raises
the aggregated error list, and on a concrete valid customer it returns
the minted non-empty id. -/
theorem add_validation_behavior_witness :
    addCustomer { demoCustomer with name := " " } emptyStore 3 false =
      (Except.error
        (validationMessage
          (validateCustomer { demoCustomer with name := " " }).errors),
       emptyStore) ∧
    (addCustomer demoCustomer emptyStore 3 false).1 = Except.ok (some "doc0") ∧
    addRepair invalidRepairInput emptyStore 0 (1/2) 0 false = (none, emptyStore) :=
  ⟨add_validation_behavior.1 { demoCustomer with name := " " } emptyStore 3 false
      (by decide),
   by rw [(add_validation_behavior.2.1 demoCustomer emptyStore 3 (by decide)).1]; rfl,
   add_validation_behavior.2.2.1 invalidRepairInput emptyStore 0 (1/2) 0 false
      (by decide)⟩


/-- A fully valid repair record stored in the demo stores. -/
def demoValidRepair : Repair :=
  { repair_id := "jan1234"
    customer_id := "c1"
    device_type := "Laptop"
    brand := "Dell"
    model := "XPS"
    issue_description := "screen cracked"
    status := "pending"
    created_date := 2
    cost := 100
    technician_id := none
    tasks := ["Screen Replacement"]
    notes := none
    passcode := none
    updatedAt := some 2 }

/-- A store holding one valid repair document under id `r1`. -/
def oneRepairStore : FireStore :=
  { customers := [], repairs := [{ id := "r1", data := demoValidRepair }],
    products := [], technicians := [], nextId := 1 }

/-- A partial repair payload that sets only a negative cost. -/
def negCostPatch : RepairPatch :=
  { repair_id := none, customer_id := none, device_type := none, brand := none,
    model := none, issue_description := none, status := none, created_date := none,
    cost := some (-5), technician_id := none, tasks := none, notes := none,
    passcode := none, updatedAt := none }

/-- Unfolding of `updateCustomer` when the document exists: the merged
record is validated, and persisted only when valid. -/
theorem updateCustomer_found (i : String) (p : CustomerPatch) (st : FireStore)
    (now : Nat) (cur : Customer) (h : findDoc st.customers i = some cur) :
    updateCustomer i p st now false =
      (if (validateCustomer { mergeCustomer cur p with updatedAt := some now }).valid
       then (true, { st with customers := replaceDoc st.customers i { mergeCustomer cur p with updatedAt := some now } })
       else (false, st)) := by
  simp only [updateCustomer, Bool.false_eq_true, if_false, h]
  split <;> simp_all

/-- Unfolding of `updateRepair` when the document exists: the merged
record is persisted unconditionally. -/
theorem updateRepair_found (i : String) (p : RepairPatch) (st : FireStore)
    (now : Nat) (cur : Repair) (h : findDoc st.repairs i = some cur) :
    updateRepair i p st now false =
      (true, { st with repairs := replaceDoc st.repairs i { mergeRepair cur p with updatedAt := some now } }) := by
  simp only [updateRepair, Bool.false_eq_true, if_false, h]

/-- Unfolding of `updateProduct` when the document exists. -/
theorem updateProduct_found (i : String) (p : ProductPatch) (st : FireStore)
    (now : Nat) (cur : Product) (h : findDoc st.products i = some cur) :
    updateProduct i p st now false =
      (true, { st with products := replaceDoc st.products i { mergeProduct cur p with updatedAt := some now } }) := by
  simp only [updateProduct, Bool.false_eq_true, if_false, h]

/-- Unfolding of `updateTechnician` when the document exists. -/
theorem updateTechnician_found (i : String) (p : TechnicianPatch) (st : FireStore)
    (now : Nat) (cur : Technician) (h : findDoc st.technicians i = some cur) :
    updateTechnician i p st now false =
      (true, { st with technicians := replaceDoc st.technicians i { mergeTechnician cur p with updatedAt := some now } }) := by
  simp only [updateTechnician, Bool.false_eq_true, if_false, h]

/-- Counterexample to C3 as stated: `updateRepair` persists a merged
record that fails validation (cost `-5`) and still returns `true` — no
validation of the merged result happens before persisting. -/
theorem updateRepair_persists_invalid_merge :
    (updateRepair "r1" negCostPatch oneRepairStore 7 false).1 = true ∧
    findDoc (updateRepair "r1" negCostPatch oneRepairStore 7 false).2.repairs "r1" =
      some { demoValidRepair with cost := -5, updatedAt := some 7 } ∧
    (validateRepair { demoValidRepair with cost := -5, updatedAt := some 7 }).valid
      = false := by
  exact ⟨by decide, by decide, by decide⟩

/-- C3 (amended): every update fetches the document and reports `false`
with no write when the id is absent; a storage failure is likewise
reported as `false`, not thrown; on an existing document every update
merges the partial fields over the stored record and stamps the update
timestamp, but only `updateCustomer` validates the merged record before
persisting (persisting and returning `true` only when it is valid) —
`updateRepair`, `updateProduct` and `updateTechnician` persist the merged
record unconditionally and return `true`. -/
theorem update_validation_behavior :
    (∀ (i : String) (p : CustomerPatch) (st : FireStore) (now : Nat),
      findDoc st.customers i = none → updateCustomer i p st now false = (false, st)) ∧
    (∀ (i : String) (p : RepairPatch) (st : FireStore) (now : Nat),
      findDoc st.repairs i = none → updateRepair i p st now false = (false, st)) ∧
    (∀ (i : String) (p : ProductPatch) (st : FireStore) (now : Nat),
      findDoc st.products i = none → updateProduct i p st now false = (false, st)) ∧
    (∀ (i : String) (p : TechnicianPatch) (st : FireStore) (now : Nat),
      findDoc st.technicians i = none → updateTechnician i p st now false = (false, st)) ∧
    (∀ (i : String) (p : CustomerPatch) (st : FireStore) (now : Nat),
      updateCustomer i p st now true = (false, st)) ∧
    (∀ (i : String) (p : RepairPatch) (st : FireStore) (now : Nat),
      updateRepair i p st now true = (false, st)) ∧
    (∀ (i : String) (p : ProductPatch) (st : FireStore) (now : Nat),
      updateProduct i p st now true = (false, st)) ∧
    (∀ (i : String) (p : TechnicianPatch) (st : FireStore) (now : Nat),
      updateTechnician i p st now true = (false, st)) ∧
    (∀ (i : String) (p : CustomerPatch) (st : FireStore) (now : Nat) (cur : Customer),
      findDoc st.customers i = some cur →
        updateCustomer i p st now false =
          (if (validateCustomer { mergeCustomer cur p with updatedAt := some now }).valid
           then (true, { st with customers := replaceDoc st.customers i { mergeCustomer cur p with updatedAt := some now } })
           else (false, st))) ∧
    (∀ (i : String) (p : RepairPatch) (st : FireStore) (now : Nat) (cur : Repair),
      findDoc st.repairs i = some cur →
        updateRepair i p st now false =
          (true, { st with repairs := replaceDoc st.repairs i { mergeRepair cur p with updatedAt := some now } })) ∧
    (∀ (i : String) (p : ProductPatch) (st : FireStore) (now : Nat) (cur : Product),
      findDoc st.products i = some cur →
        updateProduct i p st now false =
          (true, { st with products := replaceDoc st.products i { mergeProduct cur p with updatedAt := some now } })) ∧
    (∀ (i : String) (p : TechnicianPatch) (st : FireStore) (now : Nat) (cur : Technician),
      findDoc st.technicians i = some cur →
        updateTechnician i p st now false =
          (true, { st with technicians := replaceDoc st.technicians i { mergeTechnician cur p with updatedAt := some now } })) := by
  refine ⟨fun i p st now h => ?_, fun i p st now h => ?_, fun i p st now h => ?_,
          fun i p st now h => ?_, fun i p st now => rfl, fun i p st now => rfl,
          fun i p st now => rfl, fun i p st now => rfl,
          fun i p st now cur h => updateCustomer_found i p st now cur h,
          fun i p st now cur h => updateRepair_found i p st now cur h,
          fun i p st now cur h => updateProduct_found i p st now cur h,
          fun i p st now cur h => updateTechnician_found i p st now cur h⟩ <;>
    simp only [updateCustomer, updateRepair, updateProduct, updateTechnician,
               Bool.false_eq_true, if_false, h]

/-- Witness for C3: on the one-repair store, updating an absent id
reports `false` with no write, and updating the present id persists the
merged record and returns `true`. -/
theorem update_validation_behavior_witness :
    updateRepair "missing" negCostPatch oneRepairStore 7 false =
      (false, oneRepairStore) ∧
    updateRepair "r1" negCostPatch oneRepairStore 7 false =
      (true, { oneRepairStore with
                 repairs := replaceDoc oneRepairStore.repairs "r1"
                   { mergeRepair demoValidRepair negCostPatch with
                       updatedAt := some 7 } }) ∧
    updateCustomer "nobody" ⟨none, none, none, none, none, none⟩ emptyStore 7 false =
      (false, emptyStore) :=
  ⟨update_validation_behavior.2.1 "missing" negCostPatch oneRepairStore 7 (by decide),
   update_validation_behavior.2.2.2.2.2.2.2.2.2.1 "r1" negCostPatch oneRepairStore 7
     demoValidRepair (by decide),
   update_validation_behavior.1 "nobody" ⟨none, none, none, none, none, none⟩
     emptyStore 7 (by decide)⟩

/-- C9: for every entity (customer, repair, product, technician),
updating an existing document with a partial payload that does not
supply the creation-timestamp field leaves the stored creation timestamp
unchanged; every other unsupplied field also keeps its stored value, and
the update timestamp is stamped.  For `updateCustomer` this also covers
the branch where the merged record fails validation (nothing is written,
so everything is preserved). -/
theorem update_preserves_creation_timestamp :
    (∀ (i : String) (p : CustomerPatch) (st : FireStore) (now : Nat) (cur : Customer),
      findDoc st.customers i = some cur → p.createdAt = none →
        ∃ d, findDoc (updateCustomer i p st now false).2.customers i = some d ∧
          d.createdAt = cur.createdAt ∧
          (p.name = none → d.name = cur.name) ∧
          (p.phone = none → d.phone = cur.phone) ∧
          (p.email = none → d.email = cur.email) ∧
          (p.address = none → d.address = cur.address)) ∧
    (∀ (i : String) (p : RepairPatch) (st : FireStore) (now : Nat) (cur : Repair),
      findDoc st.repairs i = some cur → p.created_date = none →
        ∃ d, findDoc (updateRepair i p st now false).2.repairs i = some d ∧
          d.created_date = cur.created_date ∧ d.updatedAt = some now ∧
          (p.repair_id = none → d.repair_id = cur.repair_id) ∧
          (p.customer_id = none → d.customer_id = cur.customer_id) ∧
          (p.device_type = none → d.device_type = cur.device_type) ∧
          (p.brand = none → d.brand = cur.brand) ∧
          (p.model = none → d.model = cur.model) ∧
          (p.issue_description = none → d.issue_description = cur.issue_description) ∧
          (p.status = none → d.status = cur.status) ∧
          (p.cost = none → d.cost = cur.cost) ∧
          (p.technician_id = none → d.technician_id = cur.technician_id) ∧
          (p.tasks = none → d.tasks = cur.tasks) ∧
          (p.notes = none → d.notes = cur.notes) ∧
          (p.passcode = none → d.passcode = cur.passcode)) ∧
    (∀ (i : String) (p : ProductPatch) (st : FireStore) (now : Nat) (cur : Product),
      findDoc st.products i = some cur → p.createdAt = none →
        ∃ d, findDoc (updateProduct i p st now false).2.products i = some d ∧
          d.createdAt = cur.createdAt ∧ d.updatedAt = some now ∧
          (p.product_id = none → d.product_id = cur.product_id) ∧
          (p.name = none → d.name = cur.name) ∧
          (p.category = none → d.category = cur.category) ∧
          (p.quantity = none → d.quantity = cur.quantity) ∧
          (p.price = none → d.price = cur.price) ∧
          (p.supplier = none → d.supplier = cur.supplier) ∧
          (p.description = none → d.description = cur.description) ∧
          (p.sku = none → d.sku = cur.sku)) ∧
    (∀ (i : String) (p : TechnicianPatch) (st : FireStore) (now : Nat) (cur : Technician),
      findDoc st.technicians i = some cur → p.createdAt = none →
        ∃ d, findDoc (updateTechnician i p st now false).2.technicians i = some d ∧
          d.createdAt = cur.createdAt ∧ d.updatedAt = some now ∧
          (p.tech_id = none → d.tech_id = cur.tech_id) ∧
          (p.name = none → d.name = cur.name) ∧
          (p.specialization = none → d.specialization = cur.specialization) ∧
          (p.availability = none → d.availability = cur.availability) ∧
          (p.email = none → d.email = cur.email) ∧
          (p.phone = none → d.phone = cur.phone)) := by
  refine ⟨fun i p st now cur h hp => ?_, fun i p st now cur h hp => ?_,
          fun i p st now cur h hp => ?_, fun i p st now cur h hp => ?_⟩
  · by_cases hv :
      (validateCustomer { mergeCustomer cur p with updatedAt := some now }).valid = true
    · refine ⟨{ mergeCustomer cur p with updatedAt := some now }, ?_, ?_⟩
      · rw [updateCustomer_found i p st now cur h, if_pos hv]
        exact findDoc_replaceDoc _ _ _ _ h
      · refine ⟨by simp [mergeCustomer, hp], ?_, ?_, ?_, ?_⟩ <;>
          intro hf <;> simp [mergeCustomer, hf]
    · refine ⟨cur, ?_, rfl, fun _ => rfl, fun _ => rfl, fun _ => rfl, fun _ => rfl⟩
      rw [updateCustomer_found i p st now cur h, if_neg hv]
      exact h
  · refine ⟨{ mergeRepair cur p with updatedAt := some now }, ?_, ?_⟩
    · rw [updateRepair_found i p st now cur h]
      exact findDoc_replaceDoc _ _ _ _ h
    · constructor
      · simp [mergeRepair, hp]
      · refine ⟨rfl, ?_, ?_, ?_, ?_, ?_, ?_, ?_, ?_, ?_, ?_, ?_, ?_⟩ <;>
          intro hf <;> simp [mergeRepair, hf]
  · refine ⟨{ mergeProduct cur p with updatedAt := some now }, ?_, ?_⟩
    · rw [updateProduct_found i p st now cur h]
      exact findDoc_replaceDoc _ _ _ _ h
    · constructor
      · simp [mergeProduct, hp]
      · refine ⟨rfl, ?_, ?_, ?_, ?_, ?_, ?_, ?_, ?_⟩ <;>
          intro hf <;> simp [mergeProduct, hf]
  · refine ⟨{ mergeTechnician cur p with updatedAt := some now }, ?_, ?_⟩
    · rw [updateTechnician_found i p st now cur h]
      exact findDoc_replaceDoc _ _ _ _ h
    · constructor
      · simp [mergeTechnician, hp]
      · refine ⟨rfl, ?_, ?_, ?_, ?_, ?_, ?_⟩ <;>
          intro hf <;> simp [mergeTechnician, hf]

/-- Witness for C9: updating the stored repair with the cost-only patch
leaves its creation date unchanged. -/
theorem update_preserves_creation_timestamp_witness :
    (findDoc (updateRepair "r1" negCostPatch oneRepairStore 7 false).2.repairs
        "r1").map Repair.created_date = some demoValidRepair.created_date := by
  obtain ⟨d, hd, hcd, _⟩ :=
    update_preserves_creation_timestamp.2.1 "r1" negCostPatch oneRepairStore 7
      demoValidRepair (by decide) rfl
  rw [hd]
  simp [hcd]

/-- An uppercased base-36 digit stays in the uppercase base-36 alphabet. -/
theorem base36_toUpper (c : Char) (h : isBase36Digit c = true) :
    isBase36Upper c.toUpper = true := by
  have hc : c ∈ base36Chars := by simpa [isBase36Digit] using h
  fin_cases hc <;> decide

/-- Both generated-id suffixes: taking a substring of a well-formed
base-36 rendering from index 2 and uppercasing it yields at most `b - 2`
characters, all in the uppercase base-36 alphabet. -/
theorem upperSuffix_ok (s : String) (b : Nat) (hwf : randToString36WF s = true) :
    (jsToUpperCase (jsSubstring s 2 b)).length ≤ b - 2 ∧
    (jsToUpperCase (jsSubstring s 2 b)).toList.all isBase36Upper = true := by
  constructor
  · show (List.map Char.toUpper ((s.toList.drop 2).take (b - 2))).length ≤ b - 2
    rw [List.length_map, List.length_take]
    exact min_le_left _ _
  · show (List.map Char.toUpper ((s.toList.drop 2).take (b - 2))).all
      isBase36Upper = true
    have hdig : ∀ c ∈ s.toList.drop 2, isBase36Digit c = true := by
      simp only [randToString36WF, Bool.or_eq_true, Bool.and_eq_true, beq_iff_eq]
        at hwf
      rcases hwf with h0 | ⟨⟨⟨_, _⟩, h3⟩, _⟩
      · subst h0
        intro c hc
        simp at hc
      · intro c hc
        rw [List.all_eq_true] at h3
        exact h3 c hc
    rw [List.all_eq_true]
    intro c hc
    obtain ⟨c0, hc0, rfl⟩ := List.mem_map.1 hc
    exact base36_toUpper c0 (hdig c0 (List.take_subset _ _ hc0))

/-- Counterexample to C7 as stated: `Math.random()` can return `0.5`,
whose base-36 rendering is `"0.i"`; `substring(2, 10)` of it has a single
character, so the generated product id is `PROD-I`, whose suffix is not
an 8-character string. -/
theorem genProductId_short_suffix :
    randToString36WF "0.i" = true ∧
    genProductId "0.i" = "PROD-I" ∧
    (jsSubstring "0.i" 2 10).length = 1 ∧
    ¬((jsSubstring "0.i" 2 10).length = 8) := by
  exact ⟨by decide, by decide, by decide, by decide⟩

/-- C7 (amended): a generated repair id is the lowercased 3-letter month
abbreviation followed by the decimal rendering of an integer between
1000 and 9999; a generated product id is `PROD-` followed by at most 8
uppercase base-36 characters, and a generated technician id is `TECH-`
followed by at most 6 — fewer exactly when the base-36 rendering of the
random double is short. -/
theorem generated_id_shapes :
    (∀ (m : Fin 12) (r : ℚ), 0 ≤ r → r < 1 →
      ∃ n : ℤ, genRepairId m r = monthShortLower m ++ toString n ∧
        1000 ≤ n ∧ n ≤ 9999) ∧
    (∀ m : Fin 12, (monthShortLower m).length = 3 ∧
      (monthShortLower m).toList.all Char.isLower = true) ∧
    (∀ s : String, randToString36WF s = true →
      ∃ t : String, genProductId s = "PROD-" ++ t ∧ t.length ≤ 8 ∧
        t.toList.all isBase36Upper = true) ∧
    (∀ s : String, randToString36WF s = true →
      ∃ t : String, genTechId s = "TECH-" ++ t ∧ t.length ≤ 6 ∧
        t.toList.all isBase36Upper = true) := by
  refine ⟨fun m r h0 h1 => ⟨⌊(1000 : ℚ) + r * 9000⌋, rfl, ?_, ?_⟩,
          by decide, fun s hwf => ?_, fun s hwf => ?_⟩
  · rw [Int.le_floor]
    push_cast
    nlinarith
  · have hlt : ⌊(1000 : ℚ) + r * 9000⌋ < 10000 := by
      rw [Int.floor_lt]
      push_cast
      nlinarith
    omega
  · exact ⟨jsToUpperCase (jsSubstring s 2 10), rfl,
      (upperSuffix_ok s 10 hwf).1, (upperSuffix_ok s 10 hwf).2⟩
  · exact ⟨jsToUpperCase (jsSubstring s 2 8), rfl,
      (upperSuffix_ok s 8 hwf).1, (upperSuffix_ok s 8 hwf).2⟩

/-- Witness for C7 at concrete inputs: January with `Math.random() = 0.5`
(the generated id is `jan5500`), and the base-36 rendering
`"0.3lllllllllm"` (that of `0.1`), whose product-id suffix has the full
8 characters. -/
theorem generated_id_shapes_witness :
    (∃ n : ℤ, genRepairId 0 (1/2) = monthShortLower 0 ++ toString n ∧
      1000 ≤ n ∧ n ≤ 9999) ∧
    (∃ t : String, genProductId "0.3lllllllllm" = "PROD-" ++ t ∧ t.length ≤ 8 ∧
      t.toList.all isBase36Upper = true) :=
  ⟨generated_id_shapes.1 0 (1/2) (by norm_num) (by norm_num),
   generated_id_shapes.2.2.1 "0.3lllllllllm" (by decide)⟩
